import Mathlib

/-!
Verification development for the `georgi/agent-workshop` repository
(`src/tools.py`, `src/conversation.py`, `src/agent.py`).

The Python code is shallowly embedded: Python values that flow through the
tool layer are modelled by the `Json` inductive; an expression that may raise
a Python exception is modelled as `Except String α`, where the `.error`
payload is (a model of) `str(e)` for the raised exception `e`.  The remote
OpenAI completion endpoint is modelled as an oracle: a list of assistant
messages consumed one per completion request.
-/

namespace AgentSpec

/-- Model of a Python number as produced by `json.loads`: either an `int`
or a `float`.  Floats are modelled by exact fractions `num / den` (the
repository's claims never depend on IEEE rounding of a float result). -/
inductive PyNum where
  | int (i : ℤ)
  | float (num den : ℤ)

/-- View a number as an exact fraction. -/
def toFrac : PyNum → ℤ × ℤ
  | .int i => (i, 1)
  | .float n d => (n, d)

/-- Is the number equal to zero (as Python's `==` on numbers)? -/
def numIsZero : PyNum → Bool
  | .int i => i == 0
  | .float n _ => n == 0

/-- Fractional decimal digits of `rem / den` (at most `fuel` of them),
used to print the model's floats. -/
def fracDigits : ℕ → ℕ → ℕ → List ℕ
  | 0, _, _ => []
  | fuel + 1, rem, den =>
    if rem = 0 then [] else (rem * 10 / den) :: fracDigits fuel (rem * 10 % den) den

/-- Model of CPython's `str`/`repr` on a float `n / d`: sign, integer part,
then the fractional digits (at least one, as in `"5.0"`).  Printing is
exact on the terminating decimals exercised by the repository; very long
expansions are truncated at 17 digits. -/
def floatRepr (n d : ℤ) : String :=
  let neg := (decide (n < 0)) != (decide (d < 0))
  let nn := n.natAbs
  let dd := d.natAbs
  let ds := fracDigits 17 (nn % dd) dd
  (if neg then "-" else "") ++ toString (nn / dd) ++ "." ++
    (if ds.isEmpty then "0" else String.join (ds.map (fun k => toString k)))

/-- Model of Python's `str` on a number. -/
def pyNumStr : PyNum → String
  | .int i => toString i
  | .float n d => floatRepr n d

/-- Model of the Python values handled by the tool layer: the image of
`json.loads` (and the argument type of `json.dumps`). -/
inductive Json where
  | null
  | bool (b : Bool)
  | num (n : PyNum)
  | str (s : String)
  | arr (elems : List Json)
  | obj (entries : List (String × Json))

/-- Escape one character for a JSON string literal. -/
def escapeChar (c : Char) : String :=
  if c = '"' then "\\\""
  else if c = '\\' then "\\\\"
  else if c = '\n' then "\\n"
  else if c = '\t' then "\\t"
  else if c = '\r' then "\\r"
  else String.singleton c

/-- Quote a string as a JSON string literal. -/
def jsonQuote (s : String) : String :=
  "\"" ++ String.join (s.data.map escapeChar) ++ "\""

mutual

/-- Model of Python's `json.dumps` (the source calls it with `indent=2`;
the model abstracts the pretty-printing whitespace, which no claim
inspects, and keeps the `", "` item separators). -/
def pyJsonDumps : Json → String
  | .null => "null"
  | .bool true => "true"
  | .bool false => "false"
  | .num n => pyNumStr n
  | .str s => jsonQuote s
  | .arr xs => "[" ++ pyJsonDumpsList xs ++ "]"
  | .obj kvs => "\x7b" ++ pyJsonDumpsMembers kvs ++ "\x7d"

/-- Serialize the elements of a JSON array. -/
def pyJsonDumpsList : List Json → String
  | [] => ""
  | [x] => pyJsonDumps x
  | x :: y :: xs => pyJsonDumps x ++ ", " ++ pyJsonDumpsList (y :: xs)

/-- Serialize the members of a JSON object. -/
def pyJsonDumpsMembers : List (String × Json) → String
  | [] => ""
  | [(k, v)] => jsonQuote k ++ ": " ++ pyJsonDumps v
  | (k, v) :: m :: kvs =>
    jsonQuote k ++ ": " ++ pyJsonDumps v ++ ", " ++ pyJsonDumpsMembers (m :: kvs)

end

/-- Model of Python's `str` on a value (used by `Calculator.execute`'s
`str(...)` and f-strings).  Containers are approximated by their JSON
serialization; no claim reaches that case. -/
def pyStr : Json → String
  | .null => "None"
  | .bool true => "True"
  | .bool false => "False"
  | .num n => pyNumStr n
  | .str s => s
  | .arr xs => pyJsonDumps (.arr xs)
  | .obj kvs => pyJsonDumps (.obj kvs)

/-- Is `n` a prefix of `h` (element-wise, as Python's `str.startswith` on
char lists)? -/
def isPrefixList : List Char → List Char → Bool
  | [], _ => true
  | _ :: _, [] => false
  | a :: as, b :: bs => a == b && isPrefixList as bs

/-- Model of Python's `needle in haystack` substring test on char lists. -/
def containsSub (n : List Char) : List Char → Bool
  | [] => n.isEmpty
  | c :: t => isPrefixList n (c :: t) || containsSub n t

/-- Model of Python's `needle in haystack` on strings. -/
def pyStrIn (needle haystack : String) : Bool :=
  containsSub needle.data haystack.data

/-- Model of Python's `str.lower()` (the code only lowercases ASCII). -/
def lowerStr (s : String) : String := String.mk (s.data.map Char.toLower)

/-- Skip JSON whitespace. -/
def skipWs : List Char → List Char
  | [] => []
  | c :: cs => if c = ' ' || c = '\t' || c = '\n' || c = '\r' then skipWs cs else c :: cs

/-- Digits prefix of a char list, and the rest. -/
def takeDigits : List Char → (List Char × List Char)
  | [] => ([], [])
  | c :: cs =>
    if c.isDigit then
      let (ds, rest) := takeDigits cs
      (c :: ds, rest)
    else ([], c :: cs)

/-- Natural number denoted by a digit list. -/
def digitsToNat (ds : List Char) : ℕ :=
  ds.foldl (fun a c => a * 10 + (c.toNat - 48)) 0

/-- Parse a JSON number (integer or decimal fraction; the exponent form,
which no repository input uses, is outside the model). -/
def parseNumber (cs : List Char) : Except String (Json × List Char) :=
  let (neg, cs1) := match cs with
    | '-' :: r => (true, r)
    | _ => (false, cs)
  let (ds, cs2) := takeDigits cs1
  if ds.isEmpty then .error "Expecting value"
  else
    match cs2 with
    | '.' :: cs3 =>
      let (fs, cs4) := takeDigits cs3
      if fs.isEmpty then .error "Expecting value"
      else
        let m : ℤ := (digitsToNat (ds ++ fs) : ℤ)
        .ok (.num (.float (if neg then -m else m) ((10 : ℤ) ^ fs.length)), cs4)
    | _ =>
      let n : ℤ := (digitsToNat ds : ℤ)
      .ok (.num (.int (if neg then -n else n)), cs2)

/-- Parse the body of a JSON string literal (after the opening quote),
with the common escapes; `\u` escapes, unused by the repository, are
outside the model. -/
def parseStringChars : List Char → Except String (List Char × List Char)
  | [] => .error "Unterminated string"
  | '"' :: rest => .ok ([], rest)
  | '\\' :: [] => .error "Unterminated string"
  | '\\' :: e :: rest =>
    let c? : Except String Char :=
      if e = '"' then .ok '"'
      else if e = '\\' then .ok '\\'
      else if e = '/' then .ok '/'
      else if e = 'n' then .ok '\n'
      else if e = 't' then .ok '\t'
      else if e = 'r' then .ok '\r'
      else .error "Invalid escape"
    match c? with
    | .error m => .error m
    | .ok c =>
      match parseStringChars rest with
      | .error m => .error m
      | .ok (cs, r) => .ok (c :: cs, r)
  | c :: rest =>
    match parseStringChars rest with
    | .error m => .error m
    | .ok (cs, r) => .ok (c :: cs, r)

mutual

/-- Fuel-indexed JSON value parser (model of the recursive descent inside
CPython's `json.loads`; the fuel is sized by the caller so that it never
runs out on a parseable input). -/
def parseValue : ℕ → List Char → Except String (Json × List Char)
  | 0, _ => .error "Expecting value"
  | fuel + 1, cs =>
    match skipWs cs with
    | [] => .error "Expecting value"
    | 'n' :: rest =>
      if isPrefixList ['u', 'l', 'l'] rest then .ok (.null, rest.drop 3)
      else .error "Expecting value"
    | 't' :: rest =>
      if isPrefixList ['r', 'u', 'e'] rest then .ok (.bool true, rest.drop 3)
      else .error "Expecting value"
    | 'f' :: rest =>
      if isPrefixList ['a', 'l', 's', 'e'] rest then .ok (.bool false, rest.drop 4)
      else .error "Expecting value"
    | '"' :: rest =>
      match parseStringChars rest with
      | .error e => .error e
      | .ok (cs2, r) => .ok (.str (String.mk cs2), r)
    | '[' :: rest =>
      match skipWs rest with
      | ']' :: r2 => .ok (.arr [], r2)
      | r2 =>
        match parseItems fuel r2 with
        | .error e => .error e
        | .ok (xs, r3) => .ok (.arr xs, r3)
    | '\x7b' :: rest =>
      match skipWs rest with
      | '\x7d' :: r2 => .ok (.obj [], r2)
      | r2 =>
        match parseMembers fuel r2 with
        | .error e => .error e
        | .ok (kvs, r3) => .ok (.obj kvs, r3)
    | c :: rest =>
      if c = '-' || c.isDigit then parseNumber (c :: rest) else .error "Expecting value"

/-- Parse the (nonempty) element list of a JSON array, up to `]`. -/
def parseItems : ℕ → List Char → Except String (List Json × List Char)
  | 0, _ => .error "Expecting value"
  | fuel + 1, cs =>
    match parseValue fuel cs with
    | .error e => .error e
    | .ok (x, r) =>
      match skipWs r with
      | ',' :: r2 =>
        match parseItems fuel r2 with
        | .error e => .error e
        | .ok (xs, r3) => .ok (x :: xs, r3)
      | ']' :: r2 => .ok ([x], r2)
      | _ => .error "Expecting comma delimiter"

/-- Parse the (nonempty) member list of a JSON object, up to the closing
brace. -/
def parseMembers : ℕ → List Char → Except String (List (String × Json) × List Char)
  | 0, _ => .error "Expecting value"
  | fuel + 1, cs =>
    match skipWs cs with
    | '"' :: rest =>
      match parseStringChars rest with
      | .error e => .error e
      | .ok (kcs, r) =>
        match skipWs r with
        | ':' :: r2 =>
          match parseValue fuel r2 with
          | .error e => .error e
          | .ok (v, r3) =>
            match skipWs r3 with
            | ',' :: r4 =>
              match parseMembers fuel r4 with
              | .error e => .error e
              | .ok (kvs, r5) => .ok ((String.mk kcs, v) :: kvs, r5)
            | '\x7d' :: r4 => .ok ([(String.mk kcs, v)], r4)
            | _ => .error "Expecting comma delimiter"
        | _ => .error "Expecting colon delimiter"
    | _ => .error "Expecting property name enclosed in double quotes"

end

/-- Model of Python's `json.loads`: parse one JSON value and require only
trailing whitespace after it.  A `.error` result models a raised
`json.JSONDecodeError` (the payload models `str(e)`, without CPython's
line/column suffix). -/
def pyJsonLoads (s : String) : Except String Json :=
  match parseValue (2 * s.data.length + 4) s.data with
  | .error e => .error e
  | .ok (j, rest) => if (skipWs rest).isEmpty then .ok j else .error "Extra data"

/-- First binding of `key` in an object's entry list. -/
def lookupKey : List (String × Json) → String → Option Json
  | [], _ => none
  | (k, v) :: rest, key => if k == key then some v else lookupKey rest key

/-- Model of Python's subscript `args[key]` with a string key: a `KeyError`
(whose `str` is the quoted key) on a dict without the key, a `TypeError`
on non-dict values.  The error payloads model `str(e)`. -/
def pyGetItem : Json → String → Except String Json
  | .obj kvs, key =>
    match lookupKey kvs key with
    | some v => .ok v
    | none => .error ("'" ++ key ++ "'")
  | .str _, _ => .error "string indices must be integers"
  | .arr _, _ => .error "list indices must be integers or slices, not str"
  | _, _ => .error "object is not subscriptable"

/-- Model of Python's `dict.get(key, default)`; on a non-dict receiver the
attribute lookup of `.get` raises an `AttributeError`. -/
def pyDictGet : Json → String → Json → Except String Json
  | .obj kvs, key, dflt => .ok ((lookupKey kvs key).getD dflt)
  | _, _, _ => .error "object has no attribute get"

/-- Model of Python's `==` against a string literal: `False` whenever the
left operand is not a string. -/
def jsonEqStr : Json → String → Bool
  | .str s, t => s == t
  | _, _ => false

/-- Numeric coercion used by Python's arithmetic: numbers are themselves,
`bool` is an `int` (`True == 1`), everything else is not a number. -/
def jsonAsNum : Json → Option PyNum
  | .num n => some n
  | .bool b => some (.int (if b then 1 else 0))
  | _ => none

/-- Model of Python's `b == 0`: true exactly on numeric (or boolean) values
equal to zero. -/
def jsonEqZero (b : Json) : Bool :=
  match jsonAsNum b with
  | some n => numIsZero n
  | none => false

/-- Python's `+` on two ints stays an int, otherwise produces a float. -/
def numAdd : PyNum → PyNum → PyNum
  | .int a, .int b => .int (a + b)
  | x, y =>
    let (p, q) := toFrac x
    let (r, s) := toFrac y
    .float (p * s + r * q) (q * s)

/-- Python's `-` on numbers. -/
def numSub : PyNum → PyNum → PyNum
  | .int a, .int b => .int (a - b)
  | x, y =>
    let (p, q) := toFrac x
    let (r, s) := toFrac y
    .float (p * s - r * q) (q * s)

/-- Python's `*` on numbers. -/
def numMul : PyNum → PyNum → PyNum
  | .int a, .int b => .int (a * b)
  | x, y =>
    let (p, q) := toFrac x
    let (r, s) := toFrac y
    .float (p * r) (q * s)

/-- Model of Python's `a + b` on the value kinds the tools can receive:
numeric addition (with bool-as-int), string concatenation, `TypeError`
otherwise (sequence concatenation is outside the model; no claim uses it). -/
def pyAdd (a b : Json) : Except String Json :=
  match jsonAsNum a, jsonAsNum b with
  | some x, some y => .ok (.num (numAdd x y))
  | _, _ =>
    match a, b with
    | .str s, .str t => .ok (.str (s ++ t))
    | _, _ => .error "unsupported operand type(s) for +"

/-- Model of Python's `a - b`. -/
def pySub (a b : Json) : Except String Json :=
  match jsonAsNum a, jsonAsNum b with
  | some x, some y => .ok (.num (numSub x y))
  | _, _ => .error "unsupported operand type(s) for -"

/-- Model of Python's `a * b` (string repetition is outside the model; no
claim uses it). -/
def pyMul (a b : Json) : Except String Json :=
  match jsonAsNum a, jsonAsNum b with
  | some x, some y => .ok (.num (numMul x y))
  | _, _ => .error "unsupported operand type(s) for *"

/-- Model of Python's true division `a / b`: always a float; dividing by
numeric zero raises `ZeroDivisionError`. -/
def pyDiv (a b : Json) : Except String Json :=
  match jsonAsNum a, jsonAsNum b with
  | some x, some y =>
    if numIsZero y then .error "division by zero"
    else
      let (p, q) := toFrac x
      let (r, s) := toFrac y
      .ok (.num (.float (p * s) (q * r)))
  | _, _ => .error "unsupported operand type(s) for /"

/-- Embedding of `Calculator.execute` (src/tools.py lines 55-73).  The
`json.loads` call and the three subscripts run outside any `try`, so their
exceptions escape (`.error`); the arithmetic branches return strings. -/
def calculatorExecute (arguments : String) : Except String String :=
  match pyJsonLoads arguments with
  | .error e => .error e
  | .ok args =>
    match pyGetItem args "operation" with
    | .error e => .error e
    | .ok operation =>
      match pyGetItem args "a" with
      | .error e => .error e
      | .ok a =>
        match pyGetItem args "b" with
        | .error e => .error e
        | .ok b =>
          if jsonEqStr operation "add" then (pyAdd a b).map pyStr
          else if jsonEqStr operation "subtract" then (pySub a b).map pyStr
          else if jsonEqStr operation "multiply" then (pyMul a b).map pyStr
          else if jsonEqStr operation "divide" then
            if jsonEqZero b then .ok "Error: Division by zero"
            else (pyDiv a b).map pyStr
          else .ok ("Error: Unknown operation " ++ pyStr operation)

/-- Model of an HTTP response as seen by `WebsiteFetcher.execute` after
`requests.get(url, timeout=10)` and `raise_for_status()`. -/
structure HttpResp where
  status_code : ℤ
  text : String
  contentType : Option String

/-- Embedding of `WebsiteFetcher.execute` (src/tools.py lines 95-123).
`net` models `requests.get(url, timeout=10)` followed by
`raise_for_status()`: a `.error` is a raised `requests.RequestException`
(caught by the source's `try`), a `.ok` is a successful response.  The
`json.loads` call and the `args["url"]` subscript run outside the `try`,
so their exceptions escape. -/
def websiteFetcherExecute (net : Json → Except String HttpResp)
    (arguments : String) : Except String String :=
  match pyJsonLoads arguments with
  | .error e => .error e
  | .ok args =>
    match pyGetItem args "url" with
    | .error e => .error e
    | .ok url =>
      match net url with
      | .error e => .ok ("Error fetching website: " ++ e)
      | .ok r =>
        let contentLength := r.text.length
        let preview := r.text.take 2000
        let base : List (String × Json) :=
          [("status_code", .num (.int r.status_code)),
           ("content_length", .num (.int (contentLength : ℤ))),
           ("content_type", .str (r.contentType.getD "unknown")),
           ("content_preview", .str preview)]
        let result :=
          if contentLength > 2000 then
            base ++ [("note", .str ("Content truncated (showing 2000/" ++
              toString contentLength ++ " characters)"))]
          else base
        .ok (pyJsonDumps (.obj result))

/-- Model of Python truthiness (`if location:`). -/
def pyTruthy : Json → Bool
  | .null => false
  | .bool b => b
  | .num n => !(numIsZero n)
  | .str s => !s.isEmpty
  | .arr xs => !xs.isEmpty
  | .obj kvs => !kvs.isEmpty

/-- The `search_results` dictionary built by `SerpApiSearch.execute` from the
parsed response `data` (src/tools.py lines 190-199).  Every lookup is a
`dict.get` with a default; a non-dict receiver raises (`AttributeError`),
which the source's catch-all `except Exception` turns into the
"Unexpected error" string. -/
def serpBuildResults (query data : Json) : Except String Json :=
  match pyDictGet data "search_information" (.obj []) with
  | .error e => .error e
  | .ok si =>
    match pyDictGet si "total_results" (.str "Unknown") with
    | .error e => .error e
    | .ok total =>
      match pyDictGet data "organic_results" (.arr []) with
      | .error e => .error e
      | .ok organic =>
        match pyDictGet data "answer_box" .null with
        | .error e => .error e
        | .ok answerBox =>
          match pyDictGet data "knowledge_graph" .null with
          | .error e => .error e
          | .ok graph =>
            match pyDictGet data "related_searches" (.arr []) with
            | .error e => .error e
            | .ok related =>
              .ok (.obj
                [("query", query),
                 ("total_results", total),
                 ("organic_results", organic),
                 ("answer_box", answerBox),
                 ("knowledge_graph", graph),
                 ("related_searches", related)])

/-- Embedding of `SerpApiSearch.execute` (src/tools.py lines 160-208).
`net` models `requests.get("https://serpapi.com/search", params=params,
timeout=30)` followed by `raise_for_status()`: a `.error` is a raised
`requests.RequestException`, a `.ok` is the response body text (then fed to
`response.json()`, modelled by `pyJsonLoads`).  The `json.loads` of the
arguments, the `args["query"]` subscript and the two `args.get` calls run
outside the `try`, so their exceptions escape. -/
def serpApiSearchExecute (api_key : String) (net : Json → Except String String)
    (arguments : String) : Except String String :=
  match pyJsonLoads arguments with
  | .error e => .error e
  | .ok args =>
    match pyGetItem args "query" with
    | .error e => .error e
    | .ok query =>
      match pyDictGet args "num_results" (.num (.int 5)) with
      | .error e => .error e
      | .ok numResults =>
        match pyDictGet args "location" (.str "") with
        | .error e => .error e
        | .ok location =>
          let params0 : List (String × Json) :=
            [("engine", .str "google"),
             ("q", query),
             ("api_key", .str api_key),
             ("num", numResults)]
          let params :=
            if pyTruthy location then params0 ++ [("location", location)] else params0
          match net (.obj params) with
          | .error e => .ok ("Error performing Google search: " ++ e)
          | .ok body =>
            match pyJsonLoads body with
            | .error _ => .ok "Error parsing search results. Response was not valid JSON."
            | .ok data =>
              match serpBuildResults query data with
              | .error e => .ok ("Unexpected error performing search: " ++ e)
              | .ok results => .ok (pyJsonDumps results)

/-! ## Messages, tools and the conversation (src/conversation.py) -/

/-- The `function` field of an OpenAI tool call: name and raw argument
JSON text. -/
structure ToolCallFunction where
  name : String
  arguments : String
deriving DecidableEq

/-- One tool-invocation request emitted by the model inside an assistant
message. -/
structure ToolCall where
  id : String
  function : ToolCallFunction
deriving DecidableEq

/-- A transcript message.  `content` is optional (assistant messages may
carry only tool calls); `tool_call_id` is present on `role = "tool"`
messages; `tool_calls` is the (possibly empty) invocation-request list of an
assistant message — Python's `None` and `[]` are both falsy, so the empty
list models both. -/
structure Message where
  role : String
  content : Option String := none
  tool_call_id : Option String := none
  tool_calls : List ToolCall := []
deriving DecidableEq

/-- Embedding of the `Tool` base class (src/tools.py lines 7-30): name,
description, JSON-schema parameter declaration, and the `execute` method
(a `.error` result models a raised exception whose `str` is the payload). -/
structure Tool where
  name : String
  description : String
  parameters : Json
  execute : String → Except String String

/-- Embedding of `Tool.to_dict` (src/tools.py lines 16-25). -/
def Tool.to_dict (t : Tool) : Json :=
  .obj [("type", .str "function"),
        ("function", .obj
          [("name", .str t.name),
           ("description", .str t.description),
           ("parameters", t.parameters)])]

/-- Conversation state: the transcript plus the completion-endpoint oracle
(the list of assistant messages the remote API will return, one per
`Conversation.send` call). -/
structure ConvState where
  messages : List Message
  oracle : List Message

/-- Embedding of `Conversation.add_message` (src/conversation.py lines
20-22). -/
def addMessage (st : ConvState) (role content : String) : ConvState :=
  { st with messages := st.messages ++ [{ role := role, content := some content }] }

/-- Embedding of `Conversation.add_tool_result` (src/conversation.py lines
24-28). -/
def addToolResult (st : ConvState) (tool_call_id output : String) : ConvState :=
  { st with messages := st.messages ++
      [{ role := "tool", content := some output, tool_call_id := some tool_call_id }] }

/-- Embedding of `Conversation.send` (src/conversation.py lines 30-42): one
completion request consumes the next oracle response and appends it to the
transcript.  `none` models the remote call raising (a transport failure),
in which case nothing is appended and the exception propagates. -/
def convSend (st : ConvState) : Option (Message × ConvState) :=
  match st.oracle with
  | [] => none
  | m :: rest => some (m, { messages := st.messages ++ [m], oracle := rest })

/-- A conversation-mutating operation, for stating transcript invariants. -/
inductive ConvOp where
  | addMsg (role content : String)
  | addToolRes (tool_call_id output : String)
  | send

/-- Apply one conversation operation; `none` models a raised exception
(only `send` can raise). -/
def applyConvOp (st : ConvState) : ConvOp → Option ConvState
  | .addMsg r c => some (addMessage st r c)
  | .addToolRes i o => some (addToolResult st i o)
  | .send => (convSend st).map (fun p => p.2)

/-- Apply a sequence of conversation operations, stopping at the first
failure. -/
def applyConvOps : ConvState → List ConvOp → Option ConvState
  | st, [] => some st
  | st, op :: ops =>
    match applyConvOp st op with
    | none => none
    | some st' => applyConvOps st' ops

/-! ## The agent loop (src/agent.py) -/

/-- Embedding of `Agent.add_tool` (src/agent.py lines 27-29): plain append
to the tool list. -/
def addTool (tools : List Tool) (t : Tool) : List Tool := tools ++ [t]

/-- Default system message built by `Agent.__init__` (src/agent.py line
24). -/
def defaultSystemMessage (objective : String) : String :=
  "You are a helpful AI assistant with the objective: " ++ objective ++
    ". Think step by step to achieve the objective."

/-- Transcript produced by `Agent.__init__` (src/agent.py lines 21-25). -/
def agentInitMessages (objective : String) (system_message : Option String) :
    List Message :=
  [{ role := "system", content := some (system_message.getD (defaultSystemMessage objective)) }]

/-- Resolution of one tool-invocation request (src/agent.py lines 46-66):
filter the registered tools by name, take the first match
(`matching_tools[0]`), run it under `try/except`, and build the tool-result
message that `add_tool_result` appends. -/
def resolveToolCall (tools : List Tool) (tc : ToolCall) : Message :=
  match tools.filter (fun u => u.name == tc.function.name) with
  | [] =>
    { role := "tool",
      content := some ("Error: Tool '" ++ tc.function.name ++ "' not found"),
      tool_call_id := some tc.id }
  | t :: _ =>
    match t.execute tc.function.arguments with
    | .ok result => { role := "tool", content := some result, tool_call_id := some tc.id }
    | .error e =>
      { role := "tool", content := some ("Error: " ++ e), tool_call_id := some tc.id }

/-- The `for tool_call in tool_calls` loop of `Agent._get_response`
(src/agent.py lines 45-66), appending one tool-result message per request
in emission order. -/
def resolveToolCalls (tools : List Tool) : List ToolCall → List Message → List Message
  | [], msgs => msgs
  | tc :: rest, msgs => resolveToolCalls tools rest (msgs ++ [resolveToolCall tools tc])

/-- Embedding of `Agent._get_response` (src/agent.py lines 36-71): issue a
completion request (consume one oracle response, appending it), and while
the response carries tool calls, resolve them all and recurse.  Returns the
final assistant message, the transcript, and the remaining oracle; `none`
models the completion request itself raising (transport failure, the only
failure this function does not catch). -/
def getResponse (tools : List Tool) : List Message → List Message →
    Option (Message × List Message × List Message)
  | [], _ => none
  | resp :: rest, msgs =>
    if resp.tool_calls.isEmpty then some (resp, msgs ++ [resp], rest)
    else getResponse tools rest (resolveToolCalls tools resp.tool_calls (msgs ++ [resp]))

/-- Embedding of `Agent.send_message` (src/agent.py lines 31-34): append
the user message, then drive `_get_response`. -/
def sendMessage (tools : List Tool) (oracle msgs : List Message) (content : String) :
    Option (Message × List Message × List Message) :=
  getResponse tools oracle (msgs ++ [{ role := "user", content := some content }])

/-- The faults that can abort `Agent.run`: the `AttributeError` raised by
`response.content.lower()` when `content` is `None` (src/agent.py line 80),
and a transport failure of the completion request. -/
inductive RunAbort where
  | attrError
  | transport
deriving DecidableEq

/-- The `while turns < max_turns` loop of `Agent.run` (src/agent.py lines
78-84), with `fuel = max_turns - turns`.  Also returns the number of
`"Continue"` follow-up messages the loop sent. -/
def runAux (tools : List Tool) : List Message → List Message → Message → ℕ →
    (Except RunAbort (List Message)) × ℕ
  | _, msgs, _, 0 => (.ok msgs, 0)
  | oracle, msgs, resp, fuel + 1 =>
    match resp.content with
    | none => (.error .attrError, 0)
    | some c =>
      if pyStrIn "continue" (lowerStr c) then
        match sendMessage tools oracle msgs "Continue" with
        | none => (.error .transport, 1)
        | some (resp', msgs', oracle') =>
          let r := runAux tools oracle' msgs' resp' fuel
          (r.1, r.2 + 1)
      else (.ok msgs, 0)

/-- Embedding of `Agent.run` (src/agent.py lines 73-86): send the initial
input, then run the continuation loop with turn budget `max_turns` (the
loop body runs at most `max_turns - 1` times, since `turns` starts at 1).
Returns the final transcript (or the aborting fault) and the number of
`"Continue"` follow-ups sent. -/
def agentRun (tools : List Tool) (oracle msgs0 : List Message)
    (initial_input : String) (max_turns : ℤ) :
    (Except RunAbort (List Message)) × ℕ :=
  match sendMessage tools oracle msgs0 initial_input with
  | none => (.error .transport, 0)
  | some (resp, msgs, oracle') => runAux tools oracle' msgs resp (max_turns - 1).toNat

/-! ## Concrete tool instances (src/tools.py constructors) -/

/-- The `Calculator` tool as constructed by `Calculator.__init__`
(src/tools.py lines 36-53). -/
def calculatorTool : Tool :=
  { name := "calculator",
    description := "Perform simple arithmetic calculations",
    parameters := .obj
      [("type", .str "object"),
       ("properties", .obj
         [("operation", .obj
            [("type", .str "string"),
             ("enum", .arr [.str "add", .str "subtract", .str "multiply", .str "divide"]),
             ("description", .str "The arithmetic operation to perform")]),
          ("a", .obj [("type", .str "number"), ("description", .str "The first number")]),
          ("b", .obj [("type", .str "number"), ("description", .str "The second number")])]),
       ("required", .arr [.str "operation", .str "a", .str "b"])],
    execute := calculatorExecute }

/-- The `WebsiteFetcher` tool as constructed by `WebsiteFetcher.__init__`
(src/tools.py lines 79-93), parameterized by the network model. -/
def websiteFetcherTool (net : Json → Except String HttpResp) : Tool :=
  { name := "fetch_website",
    description := "Fetch the content of a website given a URL",
    parameters := .obj
      [("type", .str "object"),
       ("properties", .obj
         [("url", .obj
            [("type", .str "string"),
             ("description", .str "The URL of the website to fetch content from")])]),
       ("required", .arr [.str "url"])],
    execute := websiteFetcherExecute net }

/-- The `SerpApiSearch` tool as constructed by `SerpApiSearch.__init__`
(src/tools.py lines 129-158) once the credential check has passed,
parameterized by the API key and the network model. -/
def serpApiSearchTool (api_key : String) (net : Json → Except String String) : Tool :=
  { name := "google_search",
    description := "Search the web using Google Search API via SerpAPI",
    parameters := .obj
      [("type", .str "object"),
       ("properties", .obj
         [("query", .obj
            [("type", .str "string"),
             ("description", .str "The search query to look up on Google")]),
          ("num_results", .obj
            [("type", .str "integer"),
             ("description", .str "The number of search results to return (default: 5)")]),
          ("location", .obj
            [("type", .str "string"),
             ("description", .str "Optional location to tailor search results to a specific area")])]),
       ("required", .arr [.str "query"])],
    execute := serpApiSearchExecute api_key net }

/-- Does the modelled call raise (as opposed to returning a string)? -/
def raisesExn (r : Except String String) : Bool :=
  match r with
  | .error _ => true
  | .ok _ => false

/-! ## Helper lemmas -/

/-- The tool-resolution loop appends exactly the per-request result
messages, in emission order. -/
lemma resolveToolCalls_eq_append_map (tools : List Tool) :
    ∀ (tcs : List ToolCall) (msgs : List Message),
      resolveToolCalls tools tcs msgs = msgs ++ tcs.map (resolveToolCall tools) := by
  intro tcs
  induction tcs with
  | nil => intro msgs; simp [resolveToolCalls]
  | cons tc rest ih => intro msgs; simp [resolveToolCalls, ih]

/-- When the name filter finds no registered tool, resolution builds the
not-found message. -/
lemma resolveToolCall_notFound (tools : List Tool) (tc : ToolCall)
    (hfind : tools.filter (fun u => u.name == tc.function.name) = []) :
    resolveToolCall tools tc =
      { role := "tool",
        content := some ("Error: Tool '" ++ tc.function.name ++ "' not found"),
        tool_call_id := some tc.id } := by
  unfold resolveToolCall
  rw [hfind]

/-- When the name filter finds at least one registered tool, resolution
dispatches to the first one. -/
lemma resolveToolCall_found (tools : List Tool) (tc : ToolCall) (t : Tool) (ts : List Tool)
    (hfind : tools.filter (fun u => u.name == tc.function.name) = t :: ts) :
    resolveToolCall tools tc =
      (match t.execute tc.function.arguments with
       | .ok result =>
         { role := "tool", content := some result, tool_call_id := some tc.id }
       | .error e =>
         { role := "tool", content := some ("Error: " ++ e), tool_call_id := some tc.id }) := by
  unfold resolveToolCall
  rw [hfind]

/-! ## Claims -/

/-- C9: for every assistant message carrying an ordered list of
tool-invocation requests, the corresponding tool-result messages are
appended to the transcript in exactly the model's emission order, for
every combination of found, not-found and faulting tools; each result
message has role "tool" and carries the request's id. -/
theorem tool_results_in_emission_order :
    (∀ (tools : List Tool) (tcs : List ToolCall) (msgs : List Message),
      resolveToolCalls tools tcs msgs = msgs ++ tcs.map (resolveToolCall tools))
    ∧ (∀ (tools : List Tool) (tc : ToolCall),
      (resolveToolCall tools tc).role = "tool"
      ∧ (resolveToolCall tools tc).tool_call_id = some tc.id) := by
  constructor
  · exact fun tools tcs msgs => resolveToolCalls_eq_append_map tools tcs msgs
  · intro tools tc
    rcases hfind : tools.filter (fun u => u.name == tc.function.name) with _ | ⟨t, ts⟩
    · rw [resolveToolCall_notFound tools tc hfind]
      exact ⟨rfl, rfl⟩
    · rw [resolveToolCall_found tools tc t ts hfind]
      rcases t.execute tc.function.arguments with e | r
      · exact ⟨rfl, rfl⟩
      · exact ⟨rfl, rfl⟩

/-- C3: resolving an invocation request naming an unregistered tool appends
a tool-result message with content exactly `Error: Tool '<name>' not found`,
executes nothing, and processes the remaining requests of the batch
unchanged. -/
theorem tool_not_found_error_result (tools : List Tool) (tc : ToolCall)
    (hfind : tools.filter (fun u => u.name == tc.function.name) = []) :
    resolveToolCall tools tc =
      { role := "tool",
        content := some ("Error: Tool '" ++ tc.function.name ++ "' not found"),
        tool_call_id := some tc.id }
    ∧ ∀ (tcs : List ToolCall) (msgs : List Message),
        resolveToolCalls tools (tc :: tcs) msgs =
          msgs ++
            ({ role := "tool",
               content := some ("Error: Tool '" ++ tc.function.name ++ "' not found"),
               tool_call_id := some tc.id } : Message) :: tcs.map (resolveToolCall tools) := by
  have h1 := resolveToolCall_notFound tools tc hfind
  refine ⟨h1, fun tcs msgs => ?_⟩
  rw [show resolveToolCalls tools (tc :: tcs) msgs
      = resolveToolCalls tools tcs (msgs ++ [resolveToolCall tools tc]) from rfl]
  rw [resolveToolCalls_eq_append_map, h1]
  simp

/-- A concrete invocation request naming a tool that is never registered. -/
def ghostCall : ToolCall := { id := "call_0", function := { name := "ghost", arguments := "\x7b\x7d" } }

/-- Witness for C3 at a concrete unregistered tool name. -/
theorem tool_not_found_error_result_witness :
    resolveToolCall [] ghostCall =
      { role := "tool", content := some "Error: Tool 'ghost' not found",
        tool_call_id := some "call_0" }
    ∧ resolveToolCalls [] [ghostCall] [] =
        [{ role := "tool", content := some "Error: Tool 'ghost' not found",
           tool_call_id := some "call_0" }] :=
  ⟨(tool_not_found_error_result [] ghostCall rfl).1,
   (tool_not_found_error_result [] ghostCall rfl).2 [] []⟩

/-- C2: if a registered tool's `execute` raises, the resolution loop
catches the exception, appends a tool-result message with content
`Error: <exception message>` for that `tool_call_id`, and the
`send_message` turn still completes with a result. -/
theorem agent_converts_tool_exception_to_error_result
    (tools : List Tool) (tc : ToolCall) (t : Tool) (ts : List Tool) (e : String)
    (hfind : tools.filter (fun u => u.name == tc.function.name) = t :: ts)
    (hexec : t.execute tc.function.arguments = .error e) :
    resolveToolCall tools tc =
      { role := "tool", content := some ("Error: " ++ e), tool_call_id := some tc.id }
    ∧ ∀ (resp finalResp : Message) (msgs rest : List Message) (content : String),
        resp.tool_calls = [tc] → finalResp.tool_calls = [] →
        sendMessage tools (resp :: finalResp :: rest) msgs content =
          some (finalResp,
            msgs ++ [{ role := "user", content := some content }, resp,
              resolveToolCall tools tc, finalResp], rest) := by
  constructor
  · rw [resolveToolCall_found tools tc t ts hfind, hexec]
  · intro resp finalResp msgs rest content h1 h2
    unfold sendMessage
    rw [getResponse, h1]
    simp only [List.isEmpty_cons, Bool.false_eq_true, if_false]
    rw [resolveToolCalls_eq_append_map]
    rw [getResponse, h2]
    simp [List.append_assoc]

/-- A tool call to the calculator with an argument payload that is not
valid JSON, so that `Calculator.execute` raises. -/
def badCalcCall : ToolCall :=
  { id := "call_1", function := { name := "calculator", arguments := "not json" } }

/-- An assistant response carrying only the faulting tool call. -/
def assistantBadCall : Message := { role := "assistant", tool_calls := [badCalcCall] }

/-- A final assistant response with no tool calls. -/
def assistantDone : Message := { role := "assistant", content := some "done" }

/-- Witness for C2: the registered calculator raises on malformed JSON and
the turn still completes. -/
theorem agent_converts_tool_exception_to_error_result_witness :
    resolveToolCall [calculatorTool] badCalcCall =
      { role := "tool", content := some "Error: Expecting value",
        tool_call_id := some "call_1" }
    ∧ sendMessage [calculatorTool] [assistantBadCall, assistantDone] [] "hi" =
        some (assistantDone,
          [{ role := "user", content := some "hi" }, assistantBadCall,
           resolveToolCall [calculatorTool] badCalcCall, assistantDone], []) :=
  ⟨(agent_converts_tool_exception_to_error_result [calculatorTool] badCalcCall
      calculatorTool [] "Expecting value" rfl rfl).1,
   (agent_converts_tool_exception_to_error_result [calculatorTool] badCalcCall
      calculatorTool [] "Expecting value" rfl rfl).2
      assistantBadCall assistantDone [] [] "hi" rfl rfl⟩

/-- First tool registered under the duplicated name. -/
def dupToolA : Tool :=
  { name := "dup", description := "first registered", parameters := .null,
    execute := fun _ => .ok "first" }

/-- Second tool registered under the duplicated name. -/
def dupToolB : Tool :=
  { name := "dup", description := "second registered", parameters := .null,
    execute := fun _ => .ok "second" }

/-- An invocation request for the duplicated name. -/
def dupCall : ToolCall :=
  { id := "call_dup", function := { name := "dup", arguments := "\x7b\x7d" } }

/-- Counterexample to C4: with two tools registered under the same name,
`matching_tools[0]` dispatches to the FIRST-registered tool, not the
last-registered one as the claim states. -/
theorem duplicate_name_dispatches_first_not_last :
    (resolveToolCall (addTool (addTool [] dupToolA) dupToolB) dupCall).content = some "first"
    ∧ dupToolB.execute "\x7b\x7d" = .ok "second"
    ∧ ("first" : String) ≠ "second" :=
  ⟨rfl, rfl, by decide⟩

/-- C4 (amended): when several registered tools share a name, resolution
dispatches to the FIRST-registered tool of that name; the tools registered
after it are irrelevant. -/
theorem dispatch_first_registered_wins
    (pre post : List Tool) (t : Tool) (tc : ToolCall)
    (hname : (t.name == tc.function.name) = true)
    (hpre : ∀ u ∈ pre, (u.name == tc.function.name) = false) :
    resolveToolCall (pre ++ t :: post) tc = resolveToolCall [t] tc := by
  have hnil : pre.filter (fun u => u.name == tc.function.name) = [] := by
    refine List.filter_eq_nil_iff.mpr ?_
    intro u hu
    simp [hpre u hu]
  have hfilter : (pre ++ t :: post).filter (fun u => u.name == tc.function.name)
      = t :: post.filter (fun u => u.name == tc.function.name) := by
    rw [List.filter_append, hnil]
    simp [List.filter_cons, hname]
  have hr : [t].filter (fun u => u.name == tc.function.name) = [t] := by
    simp [List.filter_cons, hname]
  rw [resolveToolCall_found (pre ++ t :: post) tc t
      (post.filter (fun u => u.name == tc.function.name)) hfilter,
    resolveToolCall_found [t] tc t [] hr]

/-- An unrelated tool registered before the duplicated name. -/
def otherTool : Tool :=
  { name := "other", description := "unrelated", parameters := .null,
    execute := fun _ => .ok "other result" }

/-- Witness for the amended C4 at concrete duplicate registrations. -/
theorem dispatch_first_registered_wins_witness :
    resolveToolCall ([otherTool] ++ dupToolA :: [dupToolB]) dupCall
      = resolveToolCall [dupToolA] dupCall :=
  dispatch_first_registered_wins [otherTool] [dupToolB] dupToolA dupCall rfl
    (by
      intro u hu
      simp only [List.mem_singleton] at hu
      subst hu
      rfl)

/-- Counterexample to C1: on an argument payload that is not valid JSON,
`Calculator.execute` raises (`json.JSONDecodeError` escapes the method) —
it does not return a string beginning with `Error:`. -/
theorem calculator_malformed_json_raises :
    calculatorExecute "not json" = .error "Expecting value"
    ∧ raisesExn (calculatorExecute "not json") = true :=
  ⟨rfl, rfl⟩

/-- C1 (amended): for every malformed argument payload — invalid JSON text,
or valid JSON on which any required-field subscript fails (`operation`,
`a`, `b` for the Calculator, evaluated in source order; `url` for the
WebsiteFetcher; `query` for the SerpApiSearch, its other fields being
looked up with `dict.get` defaults) — the `execute` method of each
built-in tool raises the corresponding exception instead of returning; the
`Error:`-prefixed string for such faults is produced by the agent's
resolution loop, not by the tool. -/
theorem tools_raise_on_malformed_arguments
    (s e : String) (net : Json → Except String HttpResp)
    (net2 : Json → Except String String) (api_key : String) :
    (pyJsonLoads s = .error e →
      calculatorExecute s = .error e
      ∧ websiteFetcherExecute net s = .error e
      ∧ serpApiSearchExecute api_key net2 s = .error e)
    ∧ ∀ args : Json, pyJsonLoads s = .ok args →
        (pyGetItem args "operation" = .error e → calculatorExecute s = .error e)
        ∧ (∀ op : Json, pyGetItem args "operation" = .ok op →
            pyGetItem args "a" = .error e → calculatorExecute s = .error e)
        ∧ (∀ op a : Json, pyGetItem args "operation" = .ok op →
            pyGetItem args "a" = .ok a →
            pyGetItem args "b" = .error e → calculatorExecute s = .error e)
        ∧ (pyGetItem args "url" = .error e → websiteFetcherExecute net s = .error e)
        ∧ (pyGetItem args "query" = .error e →
            serpApiSearchExecute api_key net2 s = .error e) := by
  constructor
  · intro h
    refine ⟨?_, ?_, ?_⟩
    · unfold calculatorExecute; rw [h]
    · unfold websiteFetcherExecute; rw [h]
    · unfold serpApiSearchExecute; rw [h]
  · intro args hok
    refine ⟨?_, ?_, ?_, ?_, ?_⟩
    · intro h
      simp only [calculatorExecute, hok, h]
    · intro op hop h
      simp only [calculatorExecute, hok, hop, h]
    · intro op a hop ha h
      simp only [calculatorExecute, hok, hop, ha, h]
    · intro h
      simp only [websiteFetcherExecute, hok, h]
    · intro h
      simp only [serpApiSearchExecute, hok, h]

/-- A network stub for the website fetcher (never reached on malformed
payloads). -/
def netFetchStub : Json → Except String HttpResp := fun _ => .error "stub"

/-- A network stub for the search tool (never reached on malformed
payloads). -/
def netSearchStub : Json → Except String String := fun _ => .error "stub"

/-- Witness for the amended C1: concrete invalid JSON, and concrete valid
payloads on which each required-field subscript in turn is the failing
one (`operation`, `a` and `b` for the Calculator; `url`; `query`). -/
theorem tools_raise_on_malformed_arguments_witness :
    calculatorExecute "not a payload" = .error "Expecting value"
    ∧ calculatorExecute "\x7b\x7d" = .error "'operation'"
    ∧ calculatorExecute "\x7b\"operation\": \"add\"\x7d" = .error "'a'"
    ∧ calculatorExecute "\x7b\"operation\": \"add\", \"a\": 1\x7d" = .error "'b'"
    ∧ websiteFetcherExecute netFetchStub "\x7b\x7d" = .error "'url'"
    ∧ serpApiSearchExecute "k" netSearchStub "\x7b\x7d" = .error "'query'" :=
  ⟨((tools_raise_on_malformed_arguments "not a payload" "Expecting value"
      netFetchStub netSearchStub "k").1 rfl).1,
   (((tools_raise_on_malformed_arguments "\x7b\x7d" "'operation'"
      netFetchStub netSearchStub "k").2 (Json.obj []) rfl).1 rfl),
   (((tools_raise_on_malformed_arguments "\x7b\"operation\": \"add\"\x7d" "'a'"
      netFetchStub netSearchStub "k").2
      (Json.obj [("operation", Json.str "add")]) rfl).2.1
      (Json.str "add") rfl rfl),
   (((tools_raise_on_malformed_arguments "\x7b\"operation\": \"add\", \"a\": 1\x7d" "'b'"
      netFetchStub netSearchStub "k").2
      (Json.obj [("operation", Json.str "add"), ("a", Json.num (PyNum.int 1))]) rfl).2.2.1
      (Json.str "add") (Json.num (PyNum.int 1)) rfl rfl rfl),
   (((tools_raise_on_malformed_arguments "\x7b\x7d" "'url'"
      netFetchStub netSearchStub "k").2 (Json.obj []) rfl).2.2.2.1 rfl),
   (((tools_raise_on_malformed_arguments "\x7b\x7d" "'query'"
      netFetchStub netSearchStub "k").2 (Json.obj []) rfl).2.2.2.2 rfl)⟩

/-- C5: the three concrete calculator cases from the spec: divide-by-zero
returns (not raises) exactly "Error: Division by zero"; 25 × 13 returns the
text "325"; 5 − 5.2 returns a textual numeric (non-error) result.  (The
model evaluates the float case with exact fractions; the claim does not pin
the printed digits.) -/
theorem calculator_concrete_cases :
    calculatorExecute "\x7b\"operation\": \"divide\", \"a\": 10, \"b\": 0\x7d"
      = .ok "Error: Division by zero"
    ∧ calculatorExecute "\x7b\"operation\": \"multiply\", \"a\": 25, \"b\": 13\x7d"
      = .ok "325"
    ∧ ∃ out,
        calculatorExecute "\x7b\"operation\": \"subtract\", \"a\": 5, \"b\": 5.2\x7d"
          = .ok out
        ∧ out.startsWith "Error" = false :=
  ⟨rfl, rfl, "-0.2", rfl, by decide⟩

/-- The continuation loop sends at most `fuel` follow-up messages. -/
lemma runAux_count_le (tools : List Tool) :
    ∀ (fuel : ℕ) (oracle msgs : List Message) (resp : Message),
      (runAux tools oracle msgs resp fuel).2 ≤ fuel := by
  intro fuel
  induction fuel with
  | zero => intro oracle msgs resp; simp [runAux]
  | succ n ih =>
    intro oracle msgs resp
    rcases hc : resp.content with _ | c
    · simp [runAux, hc]
    · by_cases hin : pyStrIn "continue" (lowerStr c) = true
      · rcases hs : sendMessage tools oracle msgs "Continue" with _ | ⟨resp', msgs', oracle'⟩
        · simp [runAux, hc, hin, hs]
        · simp only [runAux, hc, hin, hs, if_true]
          exact Nat.succ_le_succ (ih oracle' msgs' resp')
      · have hin' : pyStrIn "continue" (lowerStr c) = false := by
          simpa using hin
        simp [runAux, hc, hin']

/-- C6: `run(initialInput, maxTurns = 1)` never sends the literal
`"Continue"` follow-up message, and in general `run` sends at most
`maxTurns - 1` follow-ups (with the convention that a non-positive budget
sends none). -/
theorem run_continue_budget :
    ∀ (tools : List Tool) (oracle msgs0 : List Message) (input : String),
      (agentRun tools oracle msgs0 input 1).2 = 0
      ∧ ∀ max_turns : ℤ,
          (agentRun tools oracle msgs0 input max_turns).2 ≤ (max_turns - 1).toNat := by
  intro tools oracle msgs0 input
  constructor
  · unfold agentRun
    rcases sendMessage tools oracle msgs0 input with _ | ⟨resp, msgs, oracle'⟩
    · rfl
    · show (runAux tools oracle' msgs resp ((1 : ℤ) - 1).toNat).2 = 0
      rfl
  · intro max_turns
    unfold agentRun
    rcases sendMessage tools oracle msgs0 input with _ | ⟨resp, msgs, oracle'⟩
    · exact Nat.zero_le _
    · exact runAux_count_le tools ((max_turns - 1).toNat) oracle' msgs resp

/-- C7: as soon as the latest assistant response's text does not contain
the case-insensitive substring "continue", `run`'s loop sends no further
`"Continue"` message, exits, and returns the transcript unchanged. -/
theorem run_stops_without_continue
    (tools : List Tool) (oracle msgs : List Message) (resp : Message)
    (fuel : ℕ) (c : String)
    (hc : resp.content = some c)
    (hnc : pyStrIn "continue" (lowerStr c) = false) :
    runAux tools oracle msgs resp fuel = (.ok msgs, 0) := by
  cases fuel with
  | zero => rfl
  | succ n => simp [runAux, hc, hnc]

/-- A final assistant response whose text does not contain "continue". -/
def doneResp : Message := { role := "assistant", content := some "The answer is 42." }

/-- Witness for C7 at a concrete non-continuing response. -/
theorem run_stops_without_continue_witness :
    runAux [] [] [] doneResp 5 = (.ok [], 0) :=
  run_stops_without_continue [] [] [] doneResp 5 "The answer is 42." rfl rfl

/-- The continuation check on a response with `content = None` raises. -/
lemma runAux_none_content (tools : List Tool) (oracle msgs : List Message)
    (resp : Message) (fuel : ℕ) (hc : resp.content = none) :
    runAux tools oracle msgs resp (fuel + 1) = (.error .attrError, 0) := by
  simp [runAux, hc]

/-- An assistant response with null content (permitted by the data model). -/
def nullContentResp : Message := { role := "assistant", content := none }

/-- C10: `run` is total only when the final assistant message of a turn
carries non-null text: if a turn's completion response has `content = None`
and the turn budget is not yet exhausted, the continuation check
`response.content.lower()` raises an unrecoverable `AttributeError` instead
of stopping cleanly. -/
theorem run_faults_on_null_content :
    (∀ (tools : List Tool) (oracle msgs : List Message) (resp : Message) (fuel : ℕ),
      resp.content = none →
      runAux tools oracle msgs resp (fuel + 1) = (.error .attrError, 0))
    ∧ (∀ (tools : List Tool) (rest msgs0 : List Message) (input : String)
        (max_turns : ℤ), 2 ≤ max_turns →
      agentRun tools (nullContentResp :: rest) msgs0 input max_turns =
        (.error .attrError, 0)) := by
  constructor
  · intro tools oracle msgs resp fuel hc
    exact runAux_none_content tools oracle msgs resp fuel hc
  · intro tools rest msgs0 input max_turns hmt
    unfold agentRun sendMessage
    rw [getResponse]
    simp only [nullContentResp, List.isEmpty_nil, if_true]
    obtain ⟨k, hk⟩ : ∃ k, (max_turns - 1).toNat = k + 1 :=
      ⟨(max_turns - 1).toNat - 1, by omega⟩
    rw [hk]
    exact runAux_none_content tools rest _ nullContentResp k rfl

/-- Witness for C10 at a concrete null-content response. -/
theorem run_faults_on_null_content_witness :
    runAux [] [] [] nullContentResp 1 = (.error .attrError, 0)
    ∧ agentRun [] [nullContentResp] [] "hello" 3 = (.error .attrError, 0) :=
  ⟨run_faults_on_null_content.1 [] [] [] nullContentResp 0 rfl,
   run_faults_on_null_content.2 [] [] [] "hello" 3 (by norm_num)⟩

/-- Every successful conversation operation appends exactly one message. -/
lemma applyConvOp_append (st st' : ConvState) (op : ConvOp)
    (h : applyConvOp st op = some st') :
    ∃ m, st'.messages = st.messages ++ [m] := by
  cases op with
  | addMsg r c =>
    simp only [applyConvOp, Option.some.injEq] at h
    exact ⟨_, by rw [← h]; rfl⟩
  | addToolRes i o =>
    simp only [applyConvOp, Option.some.injEq] at h
    exact ⟨_, by rw [← h]; rfl⟩
  | send =>
    rcases hor : st.oracle with _ | ⟨m, rest⟩
    · simp [applyConvOp, convSend, hor] at h
    · simp only [applyConvOp, convSend, hor, Option.map_some', Option.some.injEq] at h
      exact ⟨m, by rw [← h]⟩

/-- Applying the `add_message` calls for a list of (role, content) pairs
appends exactly the corresponding messages, in call order. -/
lemma applyConvOps_adds (ps : List (String × String)) :
    ∀ st : ConvState,
      applyConvOps st (ps.map fun p => ConvOp.addMsg p.1 p.2)
        = some { st with messages :=
            st.messages ++ ps.map (fun p => { role := p.1, content := some p.2 }) } := by
  induction ps with
  | nil => intro st; simp [applyConvOps]
  | cons p ps ih =>
    intro st
    simp only [List.map_cons, applyConvOps, applyConvOp]
    rw [ih]
    simp [addMessage, List.append_assoc]

/-- C8: the transcript is append-only — every conversation operation
(`add_message`, `add_tool_result`, `send`) either fails without a new state
or appends exactly one message at the end; over any operation sequence the
old transcript stays a prefix (nothing is mutated, reordered or removed);
and appending N messages from an empty transcript yields exactly those N
messages in call order. -/
theorem transcript_append_only :
    (∀ (st st' : ConvState) (op : ConvOp), applyConvOp st op = some st' →
      ∃ m, st'.messages = st.messages ++ [m])
    ∧ (∀ (ops : List ConvOp) (st st' : ConvState), applyConvOps st ops = some st' →
      st.messages <+: st'.messages)
    ∧ (∀ (ps : List (String × String)) (oracle : List Message),
      applyConvOps ⟨[], oracle⟩ (ps.map fun p => ConvOp.addMsg p.1 p.2)
        = some ⟨ps.map (fun p => { role := p.1, content := some p.2 }), oracle⟩) := by
  refine ⟨applyConvOp_append, ?_, ?_⟩
  · intro ops
    induction ops with
    | nil =>
      intro st st' h
      simp only [applyConvOps, Option.some.injEq] at h
      rw [h]
    | cons op ops ih =>
      intro st st' h
      simp only [applyConvOps] at h
      rcases hop : applyConvOp st op with _ | st1
      · rw [hop] at h; exact absurd h (by simp)
      · rw [hop] at h
        obtain ⟨m, hm⟩ := applyConvOp_append st st1 op hop
        calc st.messages <+: st1.messages := by rw [hm]; exact ⟨[m], rfl⟩
          _ <+: st'.messages := ih st1 st' h
  · intro ps oracle
    rw [applyConvOps_adds]
    simp

/-- Witness for C8 at a concrete one-operation sequence. -/
theorem transcript_append_only_witness :
    ([{ role := "system", content := some "s" }] : List Message) <+:
      [{ role := "system", content := some "s" }, { role := "user", content := some "hi" }] :=
  transcript_append_only.2.1 [ConvOp.addMsg "user" "hi"]
    ⟨[{ role := "system", content := some "s" }], []⟩
    ⟨[{ role := "system", content := some "s" }, { role := "user", content := some "hi" }], []⟩
    rfl

end AgentSpec
